import Mathlib

/-!
# Verification of the BARCODE configuration layer and processing worker

Shallow embedding of `src/core/config.py` and the `worker` closure of
`src/main.py` (function `create_processing_worker`).

Modelling conventions:

* Python scalar values that can be stored in a tkinter `Variable` are
  modelled by `PyVal`.  Python floats are modelled as rationals (`Rat`);
  the float literals appearing in the source (`0.1`, `0.9`, ...) are taken
  at their decimal value.
* A tkinter `Variable.set(value)` stores the raw value without validation,
  so configuration-section fields hold raw `PyVal`s.  A typed read
  (`IntVar.get()`, `DoubleVar.get()`, `BooleanVar.get()`) converts through
  Tcl and raises `TclError` on a value of the wrong kind; we model these
  reads as `Except String` computations that succeed exactly on a stored
  value of the variable's own kind.
* A YAML document (the result of `yaml.safe_load`) is modelled by `Yaml`:
  either a top-level dictionary mapping section names to field
  dictionaries, or some non-dictionary value.
* Python exceptions are modelled with `Except String`, the string being
  the exception message.
-/

/-- A Python scalar value as storable in a tkinter `Variable`. -/
inductive PyVal where
  | pyInt (n : Int)
  | pyFloat (q : Rat)
  | pyBool (b : Bool)
  | pyStr (s : String)
  | pyNone
  deriving DecidableEq, Repr

/-- `IntVar.get()`: succeeds on a stored int, raises `TclError` otherwise. -/
def getIntVar : PyVal → Except String Int
  | .pyInt n => .ok n
  | _ => .error "TclError: expected integer value"

/-- `BooleanVar.get()`: succeeds on a stored bool, raises `TclError` otherwise. -/
def getBoolVar : PyVal → Except String Bool
  | .pyBool b => .ok b
  | _ => .error "TclError: expected boolean value"

/-- `ChannelConfig` (config.py lines 82-87). -/
structure ChannelConfig where
  parse_all_channels : PyVal := .pyBool false
  selected_channel : PyVal := .pyInt 0
  deriving DecidableEq, Repr

/-- `QualityConfig` (config.py lines 90-95). -/
structure QualityConfig where
  accept_dim_images : PyVal := .pyBool false
  accept_dim_channels : PyVal := .pyBool false
  deriving DecidableEq, Repr

/-- `AnalysisConfig` (config.py lines 98-104). -/
structure AnalysisConfig where
  enable_binarization : PyVal := .pyBool false
  enable_optical_flow : PyVal := .pyBool false
  enable_intensity_distribution : PyVal := .pyBool false
  deriving DecidableEq, Repr

/-- `OutputConfig` (config.py lines 107-114). -/
structure OutputConfig where
  verbose : PyVal := .pyBool false
  save_graphs : PyVal := .pyBool false
  save_intermediates : PyVal := .pyBool false
  generate_dataset_barcode : PyVal := .pyBool false
  deriving DecidableEq, Repr

/-- `BinarizationConfig` (config.py lines 117-124). -/
structure BinarizationConfig where
  threshold_offset : PyVal := .pyFloat (1/10)
  frame_step : PyVal := .pyInt 10
  frame_start_percent : PyVal := .pyFloat (9/10)
  frame_stop_percent : PyVal := .pyFloat 1
  deriving DecidableEq, Repr

/-- `OpticalFlowConfig` (config.py lines 127-137). -/
structure OpticalFlowConfig where
  frame_step : PyVal := .pyInt 10
  window_size : PyVal := .pyInt 32
  downsample_factor : PyVal := .pyInt 8
  nm_pixel_ratio : PyVal := .pyFloat 1
  frame_interval_s : PyVal := .pyInt 1
  deriving DecidableEq, Repr

/-- `IntensityDistributionConfig` (config.py lines 140-146). -/
structure IntensityDistributionConfig where
  first_frame : PyVal := .pyInt 1
  last_frame : PyVal := .pyInt 0
  frames_evaluation_percent : PyVal := .pyFloat (1/10)
  deriving DecidableEq, Repr

/-- `BarcodeConfig` (config.py lines 168-182): the main container with
seven sections, each defaulting to its default-valued instance. -/
structure BarcodeConfig where
  channels : ChannelConfig := {}
  quality : QualityConfig := {}
  analysis : AnalysisConfig := {}
  output : OutputConfig := {}
  binarization : BinarizationConfig := {}
  optical_flow : OpticalFlowConfig := {}
  intensity_distribution : IntensityDistributionConfig := {}
  deriving DecidableEq, Repr

/-- `InputConfig` (config.py lines 72-79). -/
structure InputConfig where
  file_path : String := ""
  dir_path : String := ""
  mode : String := "file"
  configuration_file : String := ""
  deriving DecidableEq, Repr

/-- `AggregationConfig` (config.py lines 157-165). -/
structure AggregationConfig where
  output_location : String := ""
  generate_barcode : Bool := false
  sort_parameter : String := "Default"
  normalize_barcode : Bool := false
  csv_paths_list : List String := []
  deriving DecidableEq, Repr

/-- An observable step of one `worker` run: a dialog shown to the user or
a call into the pipeline (`run_analysis`) or the aggregator
(`generate_aggregate_csv`). -/
inductive WorkerStep where
  | errorDialog (title message : String)
  | infoDialog (title message : String)
  | aggregateCall (csv_paths : List String) (location : String)
      (barcode : Bool) (sortChoice : Option String)
  | analysisCall (target : String)
  deriving DecidableEq, Repr

/-- The body of the `try` block of `worker` (main.py lines 67-114),
returning the steps taken and the message of the exception escaping the
block, if any.  `aggExc` and `runExc` are the exceptions raised by the
external calls `generate_aggregate_csv` and `run_analysis` (both live
outside `src/`); `none` means the call returns normally. -/
def workerBody (inp : InputConfig) (agg : AggregationConfig) (cfg : BarcodeConfig)
    (aggExc runExc : Option String) : List WorkerStep × Option String :=
  if inp.mode = "agg" then
    if agg.csv_paths_list = [] then
      ([.errorDialog "Error" "No CSV files selected for aggregation."], none)
    else if agg.output_location = "" then
      ([.errorDialog "Error" "No aggregate location specified."], none)
    else
      let sort_choice : Option String :=
        if agg.sort_parameter = "Default" then none else some agg.sort_parameter
      ([.aggregateCall agg.csv_paths_list agg.output_location
          agg.generate_barcode sort_choice], aggExc)
  else
    if inp.dir_path = "" ∧ inp.file_path = "" then
      ([.errorDialog "Error" "No file or directory has been selected."], none)
    else
      match getBoolVar cfg.channels.parse_all_channels with
      | .error e => ([], some e)
      | .ok channels =>
        match getIntVar cfg.channels.selected_channel with
        | .error e => ([], some e)
        | .ok n =>
          -- `selected_channel.get()` returned the int `n`; Python's
          -- `channel_selection is not None` test sees a non-None value.
          let channel_selection : Option Int := some n
          if !(channels || channel_selection.isSome) then
            ([.errorDialog "Error" "No channel has been specified."], none)
          else
            let dir_name := if inp.dir_path ≠ "" then inp.dir_path else inp.file_path
            ([.analysisCall dir_name], runExc)

/-- The `worker` closure (main.py lines 66-124): run the `try` body; an
escaping exception is caught and shown as an error dialog (lines
116-119); the `finally` block (lines 121-124) then shows the completion
dialog on every path, errors and early returns included. -/
def worker (inp : InputConfig) (agg : AggregationConfig) (cfg : BarcodeConfig)
    (aggExc runExc : Option String) : List WorkerStep :=
  let r := workerBody inp agg cfg aggExc runExc
  r.1 ++
    (match r.2 with
      | some e => [.errorDialog "Error during processing" e]
      | none => []) ++
    [.infoDialog "Processing Complete" "Analysis has finished successfully."]

/-! ## Channel resolution (spec §4.1) -/

inductive ChannelError where
  | invalidChannelIndex
  deriving DecidableEq, Repr

/-- Modelled from the spec: the channel-resolution step lives in
`core/pipeline.py`, which is not under `src/`.  Spec §4.1: "Otherwise
resolves the signed index (wrap negative as `C + index`); fails with
`InvalidChannelIndex` if the resolved index is outside `[0, C)`." -/
def resolveChannelIndex (C : ℕ) (i : ℤ) : Except ChannelError ℤ :=
  let resolved : ℤ := if i < 0 then (C : ℤ) + i else i
  if 0 ≤ resolved ∧ resolved < (C : ℤ) then .ok resolved
  else .error .invalidChannelIndex

/-- Numeric view of a stored value, for range statements about defaults. -/
def PyVal.asNum : PyVal → Option Rat
  | .pyInt n => some (n : Rat)
  | .pyFloat q => some q
  | _ => none

/-! ## Claim theorems -/

/-- C9: the worker's "No channel has been specified" error branch is
unreachable: `selected_channel.get()` either raises (caught as a
processing error) or yields an integer, which is never `None`, so the
guard `channels or (channel_selection is not None)` always holds. -/
theorem C9_no_channel_error_unreachable (inp : InputConfig) (agg : AggregationConfig)
    (cfg : BarcodeConfig) (aggExc runExc : Option String) :
    WorkerStep.errorDialog "Error" "No channel has been specified." ∉
      worker inp agg cfg aggExc runExc := by
  unfold worker workerBody
  split
  · split
    · simp
    · split
      · simp
      · cases aggExc <;> simp
  · split
    · simp
    · cases hb : getBoolVar cfg.channels.parse_all_channels with
      | error e => simp
      | ok channels =>
        cases hi : getIntVar cfg.channels.selected_channel with
        | error e => simp
        | ok n => cases channels <;> cases runExc <;> simp

/-- C1 counterexample: in mode "file" with both a file and a directory
selected, `run_analysis` receives the directory path, not the selected
single file path, because `dir_name = dir_path if dir_path else
file_path` ignores the mode. -/
theorem C1_counterexample :
    WorkerStep.analysisCall "frames_dir" ∈
      worker { file_path := "stack.tif", dir_path := "frames_dir", mode := "file" }
        {} {} none none ∧
    WorkerStep.analysisCall "stack.tif" ∉
      worker { file_path := "stack.tif", dir_path := "frames_dir", mode := "file" }
        {} {} none none := by
  decide

/-- C1 (amended): in mode "agg" `run_analysis` is never invoked; in every
other mode, whenever `run_analysis` is invoked its target is the selected
directory path when one is set and otherwise the selected file path. -/
theorem C1_run_analysis_target (inp : InputConfig) (agg : AggregationConfig)
    (cfg : BarcodeConfig) (aggExc runExc : Option String) :
    (inp.mode = "agg" →
      ∀ t, WorkerStep.analysisCall t ∉ worker inp agg cfg aggExc runExc) ∧
    (∀ t, WorkerStep.analysisCall t ∈ worker inp agg cfg aggExc runExc →
      t = if inp.dir_path ≠ "" then inp.dir_path else inp.file_path) := by
  constructor
  · intro hm t
    unfold worker workerBody
    rw [if_pos hm]
    split
    · simp
    · split
      · simp
      · cases aggExc <;> simp
  · intro t ht
    unfold worker workerBody at ht
    by_cases hm : inp.mode = "agg"
    · rw [if_pos hm] at ht
      split at ht
      · simp at ht
      · split at ht
        · simp at ht
        · cases aggExc <;> simp at ht
    · rw [if_neg hm] at ht
      split at ht
      · simp at ht
      · cases hb : getBoolVar cfg.channels.parse_all_channels with
        | error e => rw [hb] at ht; cases runExc <;> simp at ht
        | ok channels =>
          rw [hb] at ht
          cases hi : getIntVar cfg.channels.selected_channel with
          | error e => rw [hi] at ht; cases runExc <;> simp at ht
          | ok n =>
            rw [hi] at ht
            cases channels <;> cases runExc <;> simp_all

theorem C1_run_analysis_target_witness :
    (WorkerStep.analysisCall "frames_dir" ∉
      worker { mode := "agg" }
        { output_location := "combined.csv", csv_paths_list := ["a.csv"] }
        {} none none) ∧
    ("frames_dir" : String) =
      (if ("frames_dir" : String) ≠ "" then "frames_dir" else "stack.tif") :=
  ⟨(C1_run_analysis_target { mode := "agg" }
      { output_location := "combined.csv", csv_paths_list := ["a.csv"] }
      {} none none).1 rfl "frames_dir",
   (C1_run_analysis_target
      { file_path := "stack.tif", dir_path := "frames_dir", mode := "file" }
      {} {} none none).2 "frames_dir" (by decide)⟩

/-- C2: evaluating the worker at a run whose aggregation call raises
"boom" shows that the error dialog carries the message, but the `finally`
block still shows the "Analysis has finished successfully." completion
dialog after the error — the completion notification is not restricted to
error-free runs. -/
theorem C2_success_dialog_shown_after_error :
    worker { mode := "agg" }
      { output_location := "combined.csv", csv_paths_list := ["a.csv"] }
      {} (some "boom") none =
    [.aggregateCall ["a.csv"] "combined.csv" false none,
     .errorDialog "Error during processing" "boom",
     .infoDialog "Processing Complete" "Analysis has finished successfully."] := by
  decide

/-- C3: in aggregation mode an empty CSV selection produces an error
dialog and `generate_aggregate_csv` is not called; moreover every
`generate_aggregate_csv` call the worker ever makes has a non-empty CSV
list. -/
theorem C3_empty_csv_list_fatal (inp : InputConfig) (agg : AggregationConfig)
    (cfg : BarcodeConfig) (aggExc runExc : Option String) :
    (inp.mode = "agg" → agg.csv_paths_list = [] →
      WorkerStep.errorDialog "Error" "No CSV files selected for aggregation." ∈
        worker inp agg cfg aggExc runExc ∧
      ∀ c l b s, WorkerStep.aggregateCall c l b s ∉ worker inp agg cfg aggExc runExc) ∧
    (∀ c l b s, WorkerStep.aggregateCall c l b s ∈ worker inp agg cfg aggExc runExc →
      c ≠ []) := by
  constructor
  · intro hm hc
    unfold worker workerBody
    rw [if_pos hm, if_pos hc]
    simp
  · intro c l b s hmem
    unfold worker workerBody at hmem
    by_cases hm : inp.mode = "agg"
    · rw [if_pos hm] at hmem
      by_cases hc : agg.csv_paths_list = []
      · rw [if_pos hc] at hmem
        simp at hmem
      · rw [if_neg hc] at hmem
        split at hmem
        · simp at hmem
        · cases aggExc <;> simp_all
    · rw [if_neg hm] at hmem
      split at hmem
      · simp at hmem
      · cases hb : getBoolVar cfg.channels.parse_all_channels with
        | error e => rw [hb] at hmem; simp at hmem
        | ok channels =>
          rw [hb] at hmem
          cases hi : getIntVar cfg.channels.selected_channel with
          | error e => rw [hi] at hmem; simp at hmem
          | ok n =>
            rw [hi] at hmem
            cases channels <;> cases runExc <;> simp_all

theorem C3_empty_csv_list_fatal_witness :
    (WorkerStep.errorDialog "Error" "No CSV files selected for aggregation." ∈
      worker { mode := "agg" } {} {} none none ∧
      ∀ c l b s, WorkerStep.aggregateCall c l b s ∉
        worker { mode := "agg" } {} {} none none) ∧
    (["a.csv"] : List String) ≠ [] :=
  ⟨(C3_empty_csv_list_fatal { mode := "agg" } {} {} none none).1 rfl rfl,
   (C3_empty_csv_list_fatal { mode := "agg" }
      { output_location := "combined.csv", csv_paths_list := ["a.csv"] }
      {} none none).2 ["a.csv"] "combined.csv" false none (by decide)⟩

/-- C4: with a valid aggregation setup, the configured sort parameter
"Default" is passed to `generate_aggregate_csv` as `None` (input order),
and any other sort-parameter string is passed through unchanged. -/
theorem C4_sort_parameter_passthrough (inp : InputConfig) (agg : AggregationConfig)
    (cfg : BarcodeConfig) (aggExc runExc : Option String)
    (hm : inp.mode = "agg") (hc : agg.csv_paths_list ≠ [])
    (hl : agg.output_location ≠ "") :
    (agg.sort_parameter = "Default" →
      WorkerStep.aggregateCall agg.csv_paths_list agg.output_location
        agg.generate_barcode none ∈ worker inp agg cfg aggExc runExc) ∧
    (agg.sort_parameter ≠ "Default" →
      WorkerStep.aggregateCall agg.csv_paths_list agg.output_location
        agg.generate_barcode (some agg.sort_parameter) ∈
        worker inp agg cfg aggExc runExc) := by
  constructor
  · intro hs
    unfold worker workerBody
    rw [if_pos hm, if_neg hc, if_neg hl]
    rw [if_pos hs]
    cases aggExc <;> simp
  · intro hs
    unfold worker workerBody
    rw [if_pos hm, if_neg hc, if_neg hl]
    rw [if_neg hs]
    cases aggExc <;> simp

theorem C4_sort_parameter_passthrough_witness :
    WorkerStep.aggregateCall ["a.csv"] "combined.csv" false none ∈
      worker { mode := "agg" }
        { output_location := "combined.csv", csv_paths_list := ["a.csv"] }
        {} none none ∧
    WorkerStep.aggregateCall ["a.csv"] "combined.csv" false (some "Mean Speed") ∈
      worker { mode := "agg" }
        { output_location := "combined.csv", sort_parameter := "Mean Speed",
          csv_paths_list := ["a.csv"] }
        {} none none :=
  ⟨(C4_sort_parameter_passthrough { mode := "agg" }
      { output_location := "combined.csv", csv_paths_list := ["a.csv"] }
      {} none none rfl (by decide) (by decide)).1 rfl,
   (C4_sort_parameter_passthrough { mode := "agg" }
      { output_location := "combined.csv", sort_parameter := "Mean Speed",
        csv_paths_list := ["a.csv"] }
      {} none none rfl (by decide) (by decide)).2 (by decide)⟩

/-- C6: every analyzer section's per-field default value lies inside the
valid range the spec states for that field. -/
theorem C6_defaults_within_ranges :
    (∃ q, ({} : BinarizationConfig).threshold_offset.asNum = some q ∧
      -1 ≤ q ∧ q ≤ 1) ∧
    (∃ q, ({} : BinarizationConfig).frame_step.asNum = some q ∧
      1 ≤ q ∧ q ≤ 100) ∧
    (∃ q, ({} : BinarizationConfig).frame_start_percent.asNum = some q ∧
      1/2 ≤ q ∧ q ≤ 9/10) ∧
    (∃ q, ({} : BinarizationConfig).frame_stop_percent.asNum = some q ∧
      9/10 ≤ q ∧ q ≤ 1) ∧
    (∃ q, ({} : OpticalFlowConfig).downsample_factor.asNum = some q ∧
      1 ≤ q ∧ q ≤ 1000) ∧
    (∃ q, ({} : OpticalFlowConfig).nm_pixel_ratio.asNum = some q ∧
      0 < q ∧ q ≤ 1000000) ∧
    (∃ q, ({} : OpticalFlowConfig).frame_interval_s.asNum = some q ∧
      1 ≤ q ∧ q ≤ 1000) ∧
    (∃ q, ({} : IntensityDistributionConfig).first_frame.asNum = some q ∧
      1 ≤ q) ∧
    (∃ q, ({} : IntensityDistributionConfig).frames_evaluation_percent.asNum =
      some q ∧ 1/100 ≤ q ∧ q ≤ 1/5) :=
  ⟨⟨1/10, rfl, by norm_num, by norm_num⟩,
   ⟨10, by norm_num [PyVal.asNum], by norm_num, by norm_num⟩,
   ⟨9/10, rfl, by norm_num, by norm_num⟩,
   ⟨1, rfl, by norm_num, by norm_num⟩,
   ⟨8, by norm_num [PyVal.asNum], by norm_num, by norm_num⟩,
   ⟨1, rfl, by norm_num, by norm_num⟩,
   ⟨1, by norm_num [PyVal.asNum], by norm_num, by norm_num⟩,
   ⟨1, by norm_num [PyVal.asNum], by norm_num⟩,
   ⟨1/10, rfl, by norm_num, by norm_num⟩⟩

/-- C7: for every channel count C and signed index i with -C ≤ i < C, the
channel selector resolves i to i mod C (negative indices wrapping as
C + i), and every index outside [-C, C-1] fails with
InvalidChannelIndex. -/
theorem C7_channel_resolution (C : ℕ) (i : ℤ) (hC : 0 < C) :
    (-(C : ℤ) ≤ i ∧ i < (C : ℤ) →
      resolveChannelIndex C i = .ok (i % (C : ℤ))) ∧
    (i < -(C : ℤ) ∨ (C : ℤ) ≤ i →
      resolveChannelIndex C i = .error .invalidChannelIndex) := by
  constructor
  · rintro ⟨h1, h2⟩
    simp only [resolveChannelIndex]
    by_cases hi : i < 0
    · rw [if_pos hi, if_pos (by constructor <;> omega)]
      have hmod : i % (C : ℤ) = (C : ℤ) + i := by
        calc i % (C : ℤ) = (i + (C : ℤ) * 1) % (C : ℤ) :=
              (Int.add_mul_emod_self_left i (C : ℤ) 1).symm
          _ = i + (C : ℤ) * 1 := by
              rw [mul_one]; exact Int.emod_eq_of_lt (by omega) (by omega)
          _ = (C : ℤ) + i := by ring
      rw [hmod]
    · rw [if_neg hi, if_pos (by constructor <;> omega)]
      rw [Int.emod_eq_of_lt (by omega) h2]
  · intro h
    simp only [resolveChannelIndex]
    by_cases hi : i < 0
    · rw [if_pos hi, if_neg (by omega)]
    · rw [if_neg hi, if_neg (by omega)]

theorem C7_channel_resolution_witness :
    resolveChannelIndex 3 (-1) = .ok ((-1) % (3 : ℤ)) ∧
    resolveChannelIndex 3 5 = .error .invalidChannelIndex :=
  ⟨(C7_channel_resolution 3 (-1) (by decide)).1 (by decide),
   (C7_channel_resolution 3 5 (by decide)).2 (by decide)⟩

/-! ## Helper lemmas for the YAML claims -/

